import Mathlib

set_option maxHeartbeats 1000000
set_option maxRecDepth 4096

/-!
Shallow embedding of the remote migration job execution engine of the
Migration-Web-app repository: the Proxmox runner (`app/ssh_runner.py`),
the KVM runner (`app/kssh_runner.py`), and the status resolution route
(`app/main/routes.py`, `migration_status`).

Modelling conventions:
- Timestamps (`time.time()`) are a monotone `Nat` clock threaded through the
  run; the clock advances on each call.
- Remote operations (paramiko calls) may raise.  A run environment `Env`
  fixes, via `failAt`, the first remote operation that raises an exception;
  operations whose failure is caught and execution then continues
  (the cleanup block of `ssh_runner`) get independent Boolean flags, since
  several of them can fail within one run.
- Every mutation of the job record and every attempted remote operation is
  recorded as an event (`Ev`), so that trace properties (append-only logs,
  terminal-status stability, attempted cleanups) can be stated directly.
-/

/-- One job record, mirroring the dict created by `start_remote_migration` and
`start_kvm_migration`: `status`, `logs`, `started_at`, `finished_at`,
`exit_code`. -/
structure JobRecord where
  status : String
  logs : List String
  started_at : Nat
  finished_at : Option Nat
  exit_code : Option Int
  deriving DecidableEq, Repr

/-- Observable events of one job task: attempted remote operations and
mutations of the job record. -/
inductive Ev where
  | connect
  | sftpOpen
  | put (remote : String)
  | chmod (remote : String)
  | sftpClose
  | execCmd (cmd : String)
  | stdinWrite (s : String)
  | readStdoutLine
  | readAllStderr
  | readStderrLine
  | recvExit
  | removeAttempt (remote : String)
  | closeClient
  | setStatus (s : String)
  | logAppend (line : String)
  | setExit (n : Int)
  | setFinishedAt
  deriving DecidableEq, Repr

/-- Python exception kinds the runners distinguish: `SSHRunnerError`,
`paramiko.AuthenticationException`, and any other `Exception`. -/
inductive Exc where
  | runner (msg : String)
  | auth (msg : String)
  | generic (msg : String)
  deriving DecidableEq, Repr

/-- Message of an exception (`str(e)` in the source). -/
def excMsg : Exc → String
  | Exc.runner m => m
  | Exc.auth m => m
  | Exc.generic m => m

/-- Remote operations whose exception aborts the `try` body of `_run`.
Only the first raising operation matters for an aborting site, so one
optional site describes them all. -/
inductive AbortSite where
  | connectAuth
  | connectOther
  | sftpOpen
  | scriptMissing
  | putScript
  | chmodScript
  | putConfig
  | sftpClose
  | execCmd
  | stdinWrite
  | recvExit
  | closeClient
  deriving DecidableEq, Repr

/-- Environment of one run: which remote operation (if any) raises, which
local files exist, the remote output, and the exit status.  The four
`cleanup*`/`remove*` flags drive the Proxmox-runner cleanup block, whose
failures are caught and execution continues (so they are independent of
`failAt`); `exCleanupOpenOk` drives the cleanup attempt inside the
exception handler of `ssh_runner._run` (its remove/close failures are
silently swallowed by bare `except: pass`, hence have no flag). -/
structure Env where
  failAt : Option AbortSite
  scriptAtPrimary : Bool
  configPresent : Bool
  stdoutLines : List String
  stderrLines : List String
  exitStatus : Int
  cleanupOpenOk : Bool
  removeScriptOk : Bool
  removeConfigOk : Bool
  cleanupCloseOk : Bool
  exCleanupOpenOk : Bool
  deriving Repr

/-- Call parameters of `start_remote_migration` / `start_kvm_migration`,
plus the working directory used by `os.path.join(os.getcwd(), ...)`. -/
structure Params where
  host : String
  port : Nat
  username : String
  password : String
  cwd : String
  remote_path : String
  local_script : String
  config_path : String
  deriving Repr

/-- State of one running job task: its registry record, the clock, the
event trace, and whether an exception escaped the task (killing only the
daemon thread, never reaching the caller of the start function). -/
structure RunState where
  jrec : JobRecord
  clock : Nat
  evs : List Ev
  escaped : Bool
  deriving Repr

/-- `posixpath.join` / `os.path.join` for the POSIX paths used here
(computed on the character list so that it evaluates in the kernel). -/
def pjoin (a b : String) : String :=
  if a.data.getLast? = some '/' then a ++ b else a ++ "/" ++ b

/-- `os.path.basename` on a POSIX system: the part after the last slash
(computed on the character list so that it evaluates in the kernel). -/
def basename (s : String) : String :=
  String.mk (((s.data.splitOn '/').reverse).headD s.data)

/-- Record a remote-operation event. -/
def emit (e : Ev) (st : RunState) : RunState :=
  { st with evs := st.evs ++ [e] }

/-- `logs.append(line)` on the record stored in the registry. -/
def logAppend (line : String) (st : RunState) : RunState :=
  { st with jrec := { st.jrec with logs := st.jrec.logs ++ [line] },
            evs := st.evs ++ [Ev.logAppend line] }

/-- `JOBS[job_id][ status] = s` (status field assignment). -/
def setStatus (s : String) (st : RunState) : RunState :=
  { st with jrec := { st.jrec with status := s },
            evs := st.evs ++ [Ev.setStatus s] }

/-- `JOBS[job_id][ exit_code] = n`. -/
def setExit (n : Int) (st : RunState) : RunState :=
  { st with jrec := { st.jrec with exit_code := some n },
            evs := st.evs ++ [Ev.setExit n] }

/-- `JOBS[job_id][ finished_at] = time.time()`: stores the clock and
advances it. -/
def setFinishedAt (st : RunState) : RunState :=
  { st with jrec := { st.jrec with finished_at := some st.clock },
            clock := st.clock + 1,
            evs := st.evs ++ [Ev.setFinishedAt] }

/-- One aborting remote operation: the event is emitted (the operation is
attempted), and the run aborts with `exc` exactly when the environment
designates this site as the raising one. -/
def opA (env : Env) (site : AbortSite) (e : Ev) (exc : Exc) (st : RunState) :
    Except (Exc × RunState) RunState :=
  let st := emit e st
  if env.failAt = some site then Except.error (exc, st) else Except.ok st

/-- `client.connect(...)`: may raise `AuthenticationException` or a generic
connection exception. -/
def connectOp (env : Env) (st : RunState) : Except (Exc × RunState) RunState :=
  let st := emit Ev.connect st
  if env.failAt = some AbortSite.connectAuth then
    Except.error (Exc.auth "Authentication failed.", st)
  else if env.failAt = some AbortSite.connectOther then
    Except.error (Exc.generic "connection error", st)
  else Except.ok st

/-- The stdout drain loop shared by both runners
(`for line in iter(lambda: stdout.readline(2048), "")` with
`logs.append(line.rstrip())`); environment lines are the post-rstrip
payloads. -/
def drainPlain (lines : List String) (st : RunState) : RunState :=
  lines.foldl (fun s l => logAppend l (emit Ev.readStdoutLine s)) st

/-- The per-line stderr drain of the KVM runner, tagging each line
(`logs.append(f"[STDERR] {line.rstrip()}")`). -/
def drainTagged (lines : List String) (st : RunState) : RunState :=
  lines.foldl (fun s l => logAppend ("[STDERR] " ++ l) (emit Ev.readStderrLine s)) st

/-- The wholesale stderr read of the Proxmox runner:
`err = stderr.read().decode(...)`; if non-empty, a single
`--- STDERR ---` header is appended followed by the untagged lines. -/
def sshStderrBlock (lines : List String) (st : RunState) : RunState :=
  let st := emit Ev.readAllStderr st
  if lines.isEmpty then st
  else lines.foldl (fun s l => logAppend l s) (logAppend "--- STDERR ---" st)

/-- Script resolution of `ssh_runner._run`: primary local path, else the
bundled fallback `app/mscript.py`, else `SSHRunnerError`.  Returns the
resolved local path.  The environment combination with the fallback also
missing is encoded by `failAt = some scriptMissing`. -/
def sshResolveScript (p : Params) (env : Env) (st : RunState) :
    Except (Exc × RunState) (RunState × String) :=
  let primary := pjoin p.cwd p.local_script
  if env.scriptAtPrimary then Except.ok (st, primary)
  else
    let fallback := pjoin (pjoin p.cwd "app") "mscript.py"
    if env.failAt = some AbortSite.scriptMissing then
      Except.error (Exc.runner ("Local script not found: " ++ primary), st)
    else
      Except.ok
        (logAppend ("Local script not found at " ++ primary ++
          ", falling back to " ++ fallback) st, fallback)

/-- The config upload step shared by both runners: upload `config.json`
when present, otherwise append only a warning line. -/
def configStep (p : Params) (env : Env) (st : RunState) :
    Except (Exc × RunState) RunState :=
  let cfgLocal := pjoin p.cwd p.config_path
  if env.configPresent then do
    let remote_config := pjoin p.remote_path "config.json"
    let st := logAppend ("Uploading " ++ cfgLocal ++ " to " ++ remote_config ++ "...") st
    let st ← opA env AbortSite.putConfig (Ev.put remote_config)
      (Exc.generic "sftp put error") st
    pure (logAppend "Config upload complete" st)
  else
    Except.ok (logAppend ("Warning: Config.json not found at " ++ cfgLocal ++
      ", skipping upload.") st)

/-- Lines 109-113 of `ssh_runner._run`: record the exit code, derive the
terminal status, stamp `finished_at`, then append the exit line. -/
def sshFinish (ec : Int) (st : RunState) : RunState :=
  logAppend ("Remote script exited with code " ++ toString ec)
    (setFinishedAt (setStatus (if ec == 0 then "finished" else "failed") (setExit ec st)))

/-- Lines 115-135 of `ssh_runner._run`: the normal-path cleanup block.
Every failure inside it is caught: remove failures get their own warning
lines, an `open_sftp` or `close` failure gets the outer
`Warning: cleanup failed` line. -/
def sshCleanup (p : Params) (env : Env) (st : RunState) : RunState :=
  let st := emit Ev.sftpOpen st
  if env.cleanupOpenOk then
    let rs := pjoin p.remote_path (basename p.local_script)
    let rc := pjoin p.remote_path "config.json"
    let st := emit (Ev.removeAttempt rs) st
    let st := if env.removeScriptOk then logAppend ("Deleted remote script: " ++ rs) st
              else logAppend ("Warning: could not delete " ++ rs ++ ": remove error") st
    let st := emit (Ev.removeAttempt rc) st
    let st := if env.removeConfigOk then logAppend ("Deleted remote config: " ++ rc) st
              else logAppend ("Warning: could not delete " ++ rc ++ ": remove error") st
    let st := emit Ev.sftpClose st
    if env.cleanupCloseOk then st
    else logAppend "Warning: cleanup failed: close error" st
  else logAppend "Warning: cleanup failed: open_sftp error" st

/-- The `try` body of `ssh_runner._run` (lines 56-137). -/
def ssh_try (p : Params) (env : Env) (st : RunState) :
    Except (Exc × RunState) RunState := do
  let st := logAppend ("Connecting to " ++ p.host ++ ":" ++ toString p.port ++
    " as " ++ p.username ++ "...") st
  let st ← connectOp env st
  let st := logAppend "SSH connection established." st
  let st ← opA env AbortSite.sftpOpen Ev.sftpOpen (Exc.generic "sftp open error") st
  let r ← sshResolveScript p env st
  let st := r.1
  let lsp := r.2
  let remote_script := pjoin p.remote_path (basename p.local_script)
  let st := logAppend ("Uploading " ++ lsp ++ " to " ++ remote_script ++ "...") st
  let st ← opA env AbortSite.putScript (Ev.put remote_script) (Exc.generic "sftp put error") st
  let st ← opA env AbortSite.chmodScript (Ev.chmod remote_script)
    (Exc.generic "sftp chmod error") st
  let st ← configStep p env st
  let st ← opA env AbortSite.sftpClose Ev.sftpClose (Exc.generic "sftp close error") st
  let st := logAppend "Upload complete." st
  let cmd := "python3 -u " ++ remote_script
  let st := logAppend ("Executing: " ++ cmd) st
  let st ← opA env AbortSite.execCmd (Ev.execCmd cmd) (Exc.generic "exec error") st
  let st := drainPlain env.stdoutLines st
  let st := sshStderrBlock env.stderrLines st
  let st ← opA env AbortSite.recvExit Ev.recvExit (Exc.generic "channel error") st
  let st := sshFinish env.exitStatus st
  let st := sshCleanup p env st
  let st ← opA env AbortSite.closeClient Ev.closeClient (Exc.generic "close error") st
  pure st

/-- Lines 143-158 of `ssh_runner._run`: the cleanup attempt inside the
exception handler.  Remove failures and the inner close failure are
silently swallowed (`except: pass`); only an `open_sftp` failure skips
the remove attempts. -/
def sshExcCleanup (p : Params) (env : Env) (st : RunState) : RunState :=
  let st := emit Ev.sftpOpen st
  if env.exCleanupOpenOk then
    let rs := pjoin p.remote_path (basename p.local_script)
    let rc := pjoin p.remote_path "config.json"
    emit Ev.sftpClose (emit (Ev.removeAttempt rc) (emit (Ev.removeAttempt rs) st))
  else st

/-- The final `client.close()` of the exception handler (line 159): it is
not wrapped in any `try`, so a failure escapes the job task (killing the
daemon thread only). -/
def sshCloseFinal (env : Env) (st : RunState) : RunState :=
  let st := emit Ev.closeClient st
  if env.failAt = some AbortSite.closeClient then { st with escaped := true } else st

/-- Lines 138-159 of `ssh_runner._run`: the exception handler.  It
unconditionally re-marks the job failed, stamps `finished_at`, logs the
exception, then attempts cleanup and closes the client.  The `if client:`
guard is always true here: the first operation that can raise
(`client.connect`) runs after the client object is constructed. -/
def ssh_handler (p : Params) (env : Env) (e : Exc) (st : RunState) : RunState :=
  let st := setStatus "failed" st
  let st := setFinishedAt st
  let st := logAppend ("Exception: " ++ excMsg e) st
  sshCloseFinal env (sshExcCleanup p env st)

/-- The initial job record created by the start functions
(`status queued`, empty logs, `started_at = time.time()`). -/
def initRecord (t0 : Nat) : JobRecord :=
  { status := "queued", logs := [], started_at := t0,
    finished_at := none, exit_code := none }

/-- The whole `_run` task of `ssh_runner`: marks the job running, executes
the `try` body, and on exception runs the handler. -/
def ssh_run (t0 : Nat) (p : Params) (env : Env) : RunState :=
  let st : RunState :=
    { jrec := initRecord t0, clock := t0 + 1, evs := [], escaped := false }
  let st := setStatus "running" st
  match ssh_try p env st with
  | Except.ok st => st
  | Except.error (e, st) => ssh_handler p env e st

/-- Script resolution of `kssh_runner._run`: primary local path, else the
bundled fallback `app/kvm_migration.py`, else `SSHRunnerError`. -/
def ksshResolveScript (p : Params) (env : Env) (st : RunState) :
    Except (Exc × RunState) (RunState × String) :=
  let primary := pjoin p.cwd p.local_script
  if env.scriptAtPrimary then Except.ok (st, primary)
  else
    let fallback := pjoin (pjoin p.cwd "app") "kvm_migration.py"
    if env.failAt = some AbortSite.scriptMissing then
      Except.error (Exc.runner ("Local KVM migration script not found: " ++ primary), st)
    else
      Except.ok
        (logAppend ("Local script not found at " ++ primary ++
          ", falling back to " ++ fallback) st, fallback)

/-- Lines 115-125 of `kssh_runner._run`: record the exit code, append the
tagged exit line, set the terminal status, then stamp `finished_at`. -/
def ksshFinish (ec : Int) (st : RunState) : RunState :=
  let st := setExit ec st
  let st :=
    if ec == 0 then
      setStatus "finished"
        (logAppend ("[SUCCESS] KVM migration script exited with code " ++ toString ec) st)
    else
      setStatus "failed"
        (logAppend ("[ERROR] KVM migration script exited with code " ++ toString ec) st)
  setFinishedAt st

/-- The `try` body of `kssh_runner._run` (lines 57-125). -/
def kssh_try (p : Params) (env : Env) (st : RunState) :
    Except (Exc × RunState) RunState := do
  let st := logAppend ("Connecting to " ++ p.host ++ ":" ++ toString p.port ++
    " as " ++ p.username ++ "...") st
  let st ← connectOp env st
  let st := logAppend "SSH connection established." st
  let st ← opA env AbortSite.sftpOpen Ev.sftpOpen (Exc.generic "sftp open error") st
  let r ← ksshResolveScript p env st
  let st := r.1
  let lsp := r.2
  let remote_script := pjoin p.remote_path (basename p.local_script)
  let st := logAppend ("Uploading " ++ lsp ++ " to " ++ remote_script ++ "...") st
  let st ← opA env AbortSite.putScript (Ev.put remote_script) (Exc.generic "sftp put error") st
  let st ← opA env AbortSite.chmodScript (Ev.chmod remote_script)
    (Exc.generic "sftp chmod error") st
  let st ← configStep p env st
  let st ← opA env AbortSite.sftpClose Ev.sftpClose (Exc.generic "sftp close error") st
  let st := logAppend "Upload complete." st
  let cmd := "sudo -S python3 -u " ++ remote_script
  let st := logAppend ("Executing as root: " ++ cmd) st
  let st ← opA env AbortSite.execCmd (Ev.execCmd cmd) (Exc.generic "exec error") st
  let st ← opA env AbortSite.stdinWrite (Ev.stdinWrite (p.password ++ "\n"))
    (Exc.generic "channel error") st
  let st := drainPlain env.stdoutLines st
  let st := drainTagged env.stderrLines st
  let st ← opA env AbortSite.recvExit Ev.recvExit (Exc.generic "channel error") st
  pure (ksshFinish env.exitStatus st)

/-- Lines 127-138 of `kssh_runner._run`: the three exception handlers.
Each appends its tagged error line, marks the job failed, and stamps
`finished_at`; the `AuthenticationException` handler uses a dedicated
message. -/
def kssh_handler (e : Exc) (st : RunState) : RunState :=
  let st :=
    match e with
    | Exc.runner m => logAppend ("[ERROR] " ++ m) st
    | Exc.auth m => logAppend ("[ERROR] SSH authentication failed: " ++ m) st
    | Exc.generic m => logAppend ("[ERROR] " ++ m) st
  setFinishedAt (setStatus "failed" st)

/-- Lines 139-141 of `kssh_runner._run`: the `finally` block closes the
client; a failure there escapes the task (killing the daemon thread only)
and leaves the record untouched. -/
def ksshFinally (env : Env) (st : RunState) : RunState :=
  let st := emit Ev.closeClient st
  if env.failAt = some AbortSite.closeClient then { st with escaped := true } else st

/-- The whole `_run` task of `kssh_runner`: marks the job running, executes
the `try` body, on exception runs the matching handler, and always runs the
`finally` block. -/
def kssh_run (t0 : Nat) (p : Params) (env : Env) : RunState :=
  let st : RunState :=
    { jrec := initRecord t0, clock := t0 + 1, evs := [], escaped := false }
  let st := setStatus "running" st
  match kssh_try p env st with
  | Except.ok st => ksshFinally env st
  | Except.error (e, st) => ksshFinally env (kssh_handler e st)

/-- Creation step of `start_remote_migration` / `start_kvm_migration`: a
fresh job id is stored with the initial record, and the id is returned to
the caller immediately, before the background task does any work. -/
def startJob (jobs : List (String × JobRecord)) (uid : String) (t0 : Nat) :
    List (String × JobRecord) × String :=
  ((uid, initRecord t0) :: jobs, uid)

/-- Registry lookup (`JOBS.get(job_id)` / `job_id in JOBS`). -/
def lookupJob (jobs : List (String × JobRecord)) (id : String) : Option JobRecord :=
  match jobs.find? (fun kv => kv.1 == id) with
  | some kv => some kv.2
  | none => none

/-- `ssh_runner.get_job_status`: `JOBS.get(job_id)`, raising
`SSHRunnerError("Job not found")` when missing.  The stored record dict is
always non-empty, hence truthy, so `if not job` fires exactly on a missing
key. -/
def get_job_status (jobs : List (String × JobRecord)) (id : String) :
    Except String JobRecord :=
  match lookupJob jobs id with
  | none => Except.error "Job not found"
  | some j => Except.ok j

/-- `kssh_runner.get_job_status`: membership test, raising
`SSHRunnerError(f"Job not found: {job_id}")` when missing, otherwise
returning `JOBS[job_id].copy()` (value level; the aliasing of the copy is
modelled separately on the heap model below). -/
def kssh_get_job_status (jobs : List (String × JobRecord)) (id : String) :
    Except String JobRecord :=
  match lookupJob jobs id with
  | none => Except.error ("Job not found: " ++ id)
  | some j => Except.ok j

/-- `kssh_runner.clear_job`: delete the entry when present, no-op
otherwise. -/
def clear_job (jobs : List (String × JobRecord)) (id : String) :
    List (String × JobRecord) :=
  jobs.filter (fun kv => !(kv.1 == id))

/-- The two module-level registries: `ssh_runner.JOBS` (Proxmox) and
`kssh_runner.JOBS` (KVM) are distinct module-level dicts. -/
structure AppState where
  pjobs : List (String × JobRecord)
  kjobs : List (String × JobRecord)
  deriving Repr

/-- `start_remote_migration` stores the new job only in the Proxmox
registry. -/
def appStartP (s : AppState) (uid : String) (t0 : Nat) : AppState :=
  { s with pjobs := (startJob s.pjobs uid t0).1 }

/-- `start_kvm_migration` stores the new job only in the KVM registry. -/
def appStartK (s : AppState) (uid : String) (t0 : Nat) : AppState :=
  { s with kjobs := (startJob s.kjobs uid t0).1 }

/-- `kssh_runner.clear_job` deletes only from the KVM registry. -/
def appClearK (s : AppState) (id : String) : AppState :=
  { s with kjobs := clear_job s.kjobs id }

/-- The `migration_status` route: try the Proxmox `get_job_status` first;
on its `SSHRunnerError` fall back to the KVM `get_job_status`; if that
also raises, answer 404 `Job not found`. -/
def migration_status (s : AppState) (id : String) : Except String JobRecord :=
  match get_job_status s.pjobs id with
  | Except.ok j => Except.ok j
  | Except.error _ =>
    match kssh_get_job_status s.kjobs id with
    | Except.ok j => Except.ok j
    | Except.error _ => Except.error "Job not found"

/-- Registry-level actions of the system: the two start calls and the KVM
job deletion. -/
inductive RegAction where
  | startP (uid : String) (t0 : Nat)
  | startK (uid : String) (t0 : Nat)
  | clearK (id : String)
  deriving DecidableEq, Repr

/-- Apply one registry action. -/
def applyAction (s : AppState) : RegAction → AppState
  | RegAction.startP uid t0 => appStartP s uid t0
  | RegAction.startK uid t0 => appStartK s uid t0
  | RegAction.clearK id => appClearK s id

/-- Apply a list of registry actions in order. -/
def runActions (s : AppState) (as : List RegAction) : AppState :=
  as.foldl applyAction s

/-- Membership of a job id in a registry. -/
def hasJob (jobs : List (String × JobRecord)) (id : String) : Bool :=
  jobs.any (fun kv => kv.1 == id)

/-- Freshness of an action run: every start call uses an id not yet present
in either registry (`uuid.uuid4()` collisions are assumed away). -/
def freshRun (s : AppState) : List RegAction → Bool
  | [] => true
  | a :: as =>
    (match a with
     | RegAction.startP uid _ => !(hasJob s.pjobs uid) && !(hasJob s.kjobs uid)
     | RegAction.startK uid _ => !(hasJob s.pjobs uid) && !(hasJob s.kjobs uid)
     | RegAction.clearK _ => true) && freshRun (applyAction s a) as

/-- The two registries hold disjoint sets of job ids. -/
def disjointRegs (s : AppState) : Prop :=
  ∀ id, hasJob s.pjobs id = true → hasJob s.kjobs id = false

/-! Heap model of the registry records, for the aliasing behaviour of the
two `get_job_status` functions.  A Python job-record dict is an object
whose `logs` slot holds a reference to a list object; `ssh_runner`
returns the record object itself (`return job`), `kssh_runner` returns a
shallow copy (`JOBS[job_id].copy()`) that still shares the list object. -/

/-- A job-record object on the heap: scalar slots plus a reference to the
logs list object. -/
structure PyRecordObj where
  status : String
  logsRef : Nat
  started_at : Nat
  finished_at : Option Nat
  exit_code : Option Int
  deriving Repr

/-- The heap: a store of record objects, a store of list objects, and the
next free reference. -/
structure PyHeap where
  recStore : Nat → PyRecordObj
  listStore : Nat → List String
  nextRef : Nat

/-- Materialize the value a reader observes through a record reference. -/
def readRecord (h : PyHeap) (r : Nat) : JobRecord :=
  let o := h.recStore r
  { status := o.status, logs := h.listStore o.logsRef,
    started_at := o.started_at, finished_at := o.finished_at,
    exit_code := o.exit_code }

/-- The job task mutates the status slot of its record in place. -/
def heapSetStatus (h : PyHeap) (r : Nat) (s : String) : PyHeap :=
  { h with recStore := fun x =>
      if x = r then { h.recStore r with status := s } else h.recStore x }

/-- The job task appends a line to the logs list object of its record. -/
def heapAppendLog (h : PyHeap) (r : Nat) (line : String) : PyHeap :=
  let lr := (h.recStore r).logsRef
  { h with listStore := fun x =>
      if x = lr then h.listStore lr ++ [line] else h.listStore x }

/-- `ssh_runner.get_job_status` on the heap: returns the record object
itself (`return job`), i.e. a reference into the live store. -/
def ssh_get_ref (jobs : List (String × Nat)) (id : String) : Except String Nat :=
  match jobs.find? (fun kv => kv.1 == id) with
  | some kv => Except.ok kv.2
  | none => Except.error "Job not found"

/-- `kssh_runner.get_job_status` on the heap: returns
`JOBS[job_id].copy()` — a freshly allocated record object whose slots are
copied shallowly, so its `logsRef` still points at the same list object. -/
def kssh_get_copy (jobs : List (String × Nat)) (id : String) (h : PyHeap) :
    Except String (PyHeap × Nat) :=
  match jobs.find? (fun kv => kv.1 == id) with
  | some kv =>
    let o := h.recStore kv.2
    let r := h.nextRef
    Except.ok
      ({ h with recStore := fun x => if x = r then o else h.recStore x,
                nextRef := r + 1 }, r)
  | none => Except.error ("Job not found: " ++ id)

/-! Trace checkers for the lifecycle claims. -/

/-- Is the event the assignment of a terminal status? -/
def isTerminalSet : Ev → Bool
  | Ev.setStatus s => s == "finished" || s == "failed"
  | _ => false

/-- Is the event any status assignment? -/
def isStatusSet : Ev → Bool
  | Ev.setStatus _ => true
  | _ => false

/-- Is the event the assignment of `finished_at`? -/
def isFinSet : Ev → Bool
  | Ev.setFinishedAt => true
  | _ => false

/-- Is the event a log append? -/
def isLogApp : Ev → Bool
  | Ev.logAppend _ => true
  | _ => false

/-- Is the event an attempted remote file removal? -/
def isRemove : Ev → Bool
  | Ev.removeAttempt _ => true
  | _ => false

/-- Is the event a write to the remote stdin channel? -/
def isStdin : Ev → Bool
  | Ev.stdinWrite _ => true
  | _ => false

/-- The events strictly after the first event satisfying `p`
(empty if none does). -/
def afterFirst (p : Ev → Bool) : List Ev → List Ev
  | [] => []
  | e :: es => if p e then es else afterFirst p es

/-- Terminal-transition discipline of one task trace: `finished_at` is
assigned exactly once in the whole trace, no status assignment happens
after the first terminal status assignment, and the unique `finished_at`
assignment happens after it (same transition). -/
def terminalOnce (evs : List Ev) : Bool :=
  evs.countP (fun e => isFinSet e) == 1
  && (afterFirst isTerminalSet evs).all (fun e => !isStatusSet e)
  && (afterFirst isTerminalSet evs).countP (fun e => isFinSet e) == 1

/-- No log line is appended after `finished_at` has been assigned. -/
def noLogAfterFin (evs : List Ev) : Bool :=
  (afterFirst isFinSet evs).all (fun e => !isLogApp e)

/-- The log lines a trace appends, in order. -/
def logLines (evs : List Ev) : List String :=
  evs.filterMap (fun e => match e with | Ev.logAppend l => some l | _ => none)

/-- Is the event a per-line stderr read? -/
def isStderrRead : Ev → Bool
  | Ev.readStderrLine => true
  | _ => false

/-- Is the event a wholesale stderr read? -/
def isReadAll : Ev → Bool
  | Ev.readAllStderr => true
  | _ => false

/-- The event tail the normal-path cleanup block of `ssh_runner._run`
appends (a derived characterization of `sshCleanup`, proved below). -/
def sshCleanupTailEvs (p : Params) (env : Env) : List Ev :=
  let rs := pjoin p.remote_path (basename p.local_script)
  let rc := pjoin p.remote_path "config.json"
  Ev.sftpOpen ::
    (if env.cleanupOpenOk then
      [Ev.removeAttempt rs,
       Ev.logAppend (if env.removeScriptOk then "Deleted remote script: " ++ rs
         else "Warning: could not delete " ++ rs ++ ": remove error"),
       Ev.removeAttempt rc,
       Ev.logAppend (if env.removeConfigOk then "Deleted remote config: " ++ rc
         else "Warning: could not delete " ++ rc ++ ": remove error"),
       Ev.sftpClose] ++
      (if env.cleanupCloseOk then []
       else [Ev.logAppend "Warning: cleanup failed: close error"])
    else [Ev.logAppend "Warning: cleanup failed: open_sftp error"])

/-- The event tail the exception-handler cleanup of `ssh_runner._run`
appends (a derived characterization of `sshExcCleanup`, proved below). -/
def sshExcCleanupTailEvs (p : Params) (env : Env) : List Ev :=
  let rs := pjoin p.remote_path (basename p.local_script)
  let rc := pjoin p.remote_path "config.json"
  Ev.sftpOpen ::
    (if env.exCleanupOpenOk then
      [Ev.removeAttempt rs, Ev.removeAttempt rc, Ev.sftpClose]
    else [])

/-- Parameters as the web layer passes them to `start_remote_migration`
(`app/main/routes.py` line 497). -/
def demoParams : Params :=
  { host := "pve.local", port := 22, username := "root", password := "pw",
    cwd := "/srv", remote_path := "/root", local_script := "app/mscript.py",
    config_path := "app/config.json" }

/-- Parameters as the web layer passes them to `start_kvm_migration`
(`app/main/routes.py` line 492). -/
def kvmParams : Params :=
  { demoParams with local_script := "app/kvm_migration.py" }

/-- A fully successful environment: every remote operation succeeds, the
local files exist, the remote script prints one stdout line and one stderr
line and exits with code 0. -/
def envAllOk : Env :=
  { failAt := none, scriptAtPrimary := true, configPresent := true,
    stdoutLines := ["step1"], stderrLines := ["boom"], exitStatus := 0,
    cleanupOpenOk := true, removeScriptOk := true, removeConfigOk := true,
    cleanupCloseOk := true, exCleanupOpenOk := true }

/-- Like `envAllOk`, but the final `client.close()` raises. -/
def envClose : Env := { envAllOk with failAt := some AbortSite.closeClient }

/-- Like `envAllOk`, but the connection attempt fails with an
authentication rejection. -/
def envAuth : Env := { envAllOk with failAt := some AbortSite.connectAuth }

/-- A concrete one-job heap: record object 0 (status running) whose logs
slot references list object 0 holding one line. -/
def demoHeap : PyHeap :=
  { recStore := fun _ =>
      { status := "running", logsRef := 0, started_at := 0,
        finished_at := none, exit_code := none },
    listStore := fun _ => ["a"], nextRef := 1 }

/-- The copy `kssh_runner.get_job_status` hands out on `demoHeap`. -/
def demoCopy : PyHeap × Nat :=
  match kssh_get_copy [("j", 0)] "j" demoHeap with
  | Except.ok x => x
  | Except.error _ => (demoHeap, 0)

/-! Characterization lemmas for the drain loops, so that symbolic runs can
be normalized even with arbitrary remote output. -/

theorem drainPlain_eq (lines : List String) (st : RunState) :
    drainPlain lines st =
      { st with jrec := { st.jrec with logs := st.jrec.logs ++ lines },
                evs := st.evs ++ lines.flatMap
                  (fun l => [Ev.readStdoutLine, Ev.logAppend l]) } := by
  induction lines generalizing st with
  | nil => simp [drainPlain]
  | cons l ls ih =>
    simp only [drainPlain, List.foldl_cons] at *
    rw [ih]
    simp [logAppend, emit, List.append_assoc]

theorem drainTagged_eq (lines : List String) (st : RunState) :
    drainTagged lines st =
      { st with jrec := { st.jrec with logs :=
                  st.jrec.logs ++ lines.map (fun l => "[STDERR] " ++ l) },
                evs := st.evs ++ lines.flatMap
                  (fun l => [Ev.readStderrLine, Ev.logAppend ("[STDERR] " ++ l)]) } := by
  induction lines generalizing st with
  | nil => simp [drainTagged]
  | cons l ls ih =>
    simp only [drainTagged, List.foldl_cons] at *
    rw [ih]
    simp [logAppend, emit, List.append_assoc]

theorem foldl_logAppend_eq (lines : List String) (st : RunState) :
    lines.foldl (fun s l => logAppend l s) st =
      { st with jrec := { st.jrec with logs := st.jrec.logs ++ lines },
                evs := st.evs ++ lines.map Ev.logAppend } := by
  induction lines generalizing st with
  | nil => simp
  | cons l ls ih =>
    simp only [List.foldl_cons]
    rw [ih]
    simp [logAppend, List.append_assoc]

theorem sshStderrBlock_eq (lines : List String) (st : RunState) :
    sshStderrBlock lines st =
      { st with jrec := { st.jrec with logs := st.jrec.logs ++
                  (if lines.isEmpty then [] else "--- STDERR ---" :: lines) },
                evs := st.evs ++ Ev.readAllStderr ::
                  (if lines.isEmpty then []
                   else Ev.logAppend "--- STDERR ---" :: lines.map Ev.logAppend) } := by
  cases lines with
  | nil => simp [sshStderrBlock, emit]
  | cons l ls =>
    simp only [sshStderrBlock, List.isEmpty_cons, Bool.false_eq_true, if_false]
    rw [foldl_logAppend_eq]
    simp [logAppend, emit, List.append_assoc]


/-! Generic list lemmas about the trace checkers. -/

theorem afterFirst_append_not (q : Ev → Bool) (a b : List Ev)
    (h : a.all (fun e => !q e) = true) :
    afterFirst q (a ++ b) = afterFirst q b := by
  induction a with
  | nil => simp
  | cons e es ih =>
    simp only [List.all_cons, Bool.and_eq_true, Bool.not_eq_true'] at h
    simp only [List.cons_append, afterFirst, h.1, if_false, Bool.false_eq_true]
    exact ih h.2

theorem all_flatMapPlain (q : Ev → Bool) (h1 : q Ev.readStdoutLine = false)
    (h2 : ∀ l, q (Ev.logAppend l) = false) (lines : List String) :
    ((lines.flatMap (fun l => [Ev.readStdoutLine, Ev.logAppend l])).all
      (fun e => !q e)) = true := by
  induction lines with
  | nil => simp
  | cons l ls ih => simp [h1, h2, ih]

theorem all_flatMapTagged (q : Ev → Bool) (h1 : q Ev.readStderrLine = false)
    (h2 : ∀ l, q (Ev.logAppend l) = false) (lines : List String) :
    ((lines.flatMap (fun l => [Ev.readStderrLine, Ev.logAppend ("[STDERR] " ++ l)])).all
      (fun e => !q e)) = true := by
  induction lines with
  | nil => simp
  | cons l ls ih => simp [h1, h2, ih]

theorem all_mapLog (q : Ev → Bool) (h2 : ∀ l, q (Ev.logAppend l) = false)
    (lines : List String) :
    ((lines.map Ev.logAppend).all (fun e => !q e)) = true := by
  induction lines with
  | nil => simp
  | cons l ls ih => simp [h2, ih]

theorem countP_of_all_not (q : Ev → Bool) (a : List Ev)
    (h : a.all (fun e => !q e) = true) : a.countP q = 0 := by
  rw [List.countP_eq_zero]
  intro e he
  have hq := List.all_eq_true.mp h e he
  simp only [Bool.not_eq_true'] at hq
  simp [hq]

theorem cleanupTail_all_not (q : Ev → Bool) (p : Params) (env : Env)
    (h1 : q Ev.sftpOpen = false) (h2 : ∀ r, q (Ev.removeAttempt r) = false)
    (h3 : ∀ l, q (Ev.logAppend l) = false) (h4 : q Ev.sftpClose = false) :
    ((sshCleanupTailEvs p env).all (fun e => !q e)) = true := by
  unfold sshCleanupTailEvs
  by_cases ho : env.cleanupOpenOk <;> by_cases hc : env.cleanupCloseOk <;>
    simp [ho, hc, h1, h2, h3, h4]

theorem excCleanupTail_all_not (q : Ev → Bool) (p : Params) (env : Env)
    (h1 : q Ev.sftpOpen = false) (h2 : ∀ r, q (Ev.removeAttempt r) = false)
    (h4 : q Ev.sftpClose = false) :
    ((sshExcCleanupTailEvs p env).all (fun e => !q e)) = true := by
  unfold sshExcCleanupTailEvs
  by_cases ho : env.exCleanupOpenOk <;> simp [ho, h1, h2, h4]

/-! Characterization of the cleanup blocks and the closing steps. -/

theorem sshCleanup_eq (p : Params) (env : Env) (st : RunState) :
    sshCleanup p env st =
      { st with jrec := { st.jrec with logs :=
                  st.jrec.logs ++ logLines (sshCleanupTailEvs p env) },
                evs := st.evs ++ sshCleanupTailEvs p env } := by
  unfold sshCleanup sshCleanupTailEvs
  by_cases ho : env.cleanupOpenOk <;> by_cases h1 : env.removeScriptOk <;>
  by_cases h2 : env.removeConfigOk <;> by_cases h3 : env.cleanupCloseOk <;>
    simp [ho, h1, h2, h3, logAppend, emit, logLines]

theorem sshExcCleanup_eq (p : Params) (env : Env) (st : RunState) :
    sshExcCleanup p env st = { st with evs := st.evs ++ sshExcCleanupTailEvs p env } := by
  unfold sshExcCleanup sshExcCleanupTailEvs
  by_cases ho : env.exCleanupOpenOk <;> simp [ho, emit]

theorem sshCloseFinal_eq (env : Env) (st : RunState) :
    sshCloseFinal env st =
      { st with evs := st.evs ++ [Ev.closeClient],
                escaped := if env.failAt = some AbortSite.closeClient then true
                  else st.escaped } := by
  unfold sshCloseFinal
  by_cases h : env.failAt = some AbortSite.closeClient <;> simp [h, emit]

theorem ksshFinally_eq (env : Env) (st : RunState) :
    ksshFinally env st =
      { st with evs := st.evs ++ [Ev.closeClient],
                escaped := if env.failAt = some AbortSite.closeClient then true
                  else st.escaped } := by
  unfold ksshFinally
  by_cases h : env.failAt = some AbortSite.closeClient <;> simp [h, emit]

theorem logLines_nil : logLines [] = [] := rfl

theorem logLines_cons (e : Ev) (evs : List Ev) :
    logLines (e :: evs) =
      (match e with | Ev.logAppend l => [l] | _ => []) ++ logLines evs := by
  cases e <;> simp [logLines]

theorem logLines_append (a b : List Ev) :
    logLines (a ++ b) = logLines a ++ logLines b := by
  simp [logLines]

theorem logLines_flatMapPlain (lines : List String) :
    logLines (lines.flatMap (fun l => [Ev.readStdoutLine, Ev.logAppend l])) = lines := by
  induction lines with
  | nil => rfl
  | cons l ls ih =>
    simp only [logLines] at ih ⊢
    simp [ih]

theorem logLines_flatMapTagged (lines : List String) :
    logLines (lines.flatMap (fun l => [Ev.readStderrLine, Ev.logAppend ("[STDERR] " ++ l)]))
      = lines.map (fun l => "[STDERR] " ++ l) := by
  induction lines with
  | nil => rfl
  | cons l ls ih =>
    simp only [logLines] at ih ⊢
    simp [ih]

theorem logLines_mapLog (lines : List String) :
    logLines (lines.map Ev.logAppend) = lines := by
  induction lines with
  | nil => rfl
  | cons l ls ih =>
    simp only [logLines] at ih ⊢
    simp [ih]

theorem countP_stderrRead_flatMapTagged (lines : List String) :
    ((lines.flatMap (fun l => [Ev.readStderrLine, Ev.logAppend ("[STDERR] " ++ l)])).countP
      (fun e => isStderrRead e)) = lines.length := by
  induction lines with
  | nil => rfl
  | cons l ls ih =>
    simp only [isStderrRead] at ih ⊢
    simp [List.countP_cons, ih]

theorem countP_stderrRead_flatMapTagged' (lines : List String) :
    ((lines.flatMap (fun l => [Ev.readStderrLine, Ev.logAppend ("[STDERR] " ++ l)])).countP
      (fun e => match e with | Ev.readStderrLine => true | _ => false)) = lines.length :=
  countP_stderrRead_flatMapTagged lines

/-- Full-run facts about the KVM runner task, for every environment:
lifecycle discipline of the trace, log reconstruction, absence of remote
removals, the completed-pipeline outcome, the connection-failure outcome,
and the exact log of a clean run. -/
theorem kssh_run_props (t0 : Nat) (p : Params) (env : Env) :
    terminalOnce (kssh_run t0 p env).evs = true ∧
    noLogAfterFin (kssh_run t0 p env).evs = true ∧
    (kssh_run t0 p env).jrec.logs = logLines (kssh_run t0 p env).evs ∧
    ((kssh_run t0 p env).evs.countP (fun e => isRemove e)) = 0 ∧
    ((kssh_run t0 p env).evs.countP (fun e => isReadAll e)) = 0 ∧
    (env.failAt = none →
      (kssh_run t0 p env).jrec.exit_code = some env.exitStatus ∧
      (kssh_run t0 p env).jrec.status =
        (if env.exitStatus == 0 then "finished" else "failed") ∧
      (kssh_run t0 p env).jrec.finished_at = some (t0 + 1) ∧
      (kssh_run t0 p env).jrec.started_at = t0 ∧
      Ev.execCmd ("sudo -S python3 -u " ++ pjoin p.remote_path (basename p.local_script))
        ∈ (kssh_run t0 p env).evs ∧
      Ev.stdinWrite (p.password ++ "\n") ∈ (kssh_run t0 p env).evs ∧
      Ev.recvExit ∈ (kssh_run t0 p env).evs ∧
      ((kssh_run t0 p env).evs.countP (fun e => isStderrRead e)) = env.stderrLines.length ∧
      ((if env.exitStatus == 0 then
          "[SUCCESS] KVM migration script exited with code " ++ toString env.exitStatus
        else "[ERROR] KVM migration script exited with code " ++ toString env.exitStatus)
        ∈ (kssh_run t0 p env).jrec.logs)) ∧
    ((env.failAt = some AbortSite.connectAuth ∨ env.failAt = some AbortSite.connectOther) →
      (kssh_run t0 p env).jrec.status = "failed" ∧
      (kssh_run t0 p env).jrec.exit_code = none ∧
      (("[ERROR] SSH authentication failed: Authentication failed.")
          ∈ (kssh_run t0 p env).jrec.logs ∨
        ("[ERROR] connection error") ∈ (kssh_run t0 p env).jrec.logs) ∧
      (kssh_run t0 p env).escaped = false) ∧
    (env.failAt = none → env.scriptAtPrimary = true → env.configPresent = true →
      (kssh_run t0 p env).jrec.logs =
        ["Connecting to " ++ p.host ++ ":" ++ toString p.port ++ " as " ++
           p.username ++ "...",
         "SSH connection established.",
         "Uploading " ++ pjoin p.cwd p.local_script ++ " to " ++
           pjoin p.remote_path (basename p.local_script) ++ "...",
         "Uploading " ++ pjoin p.cwd p.config_path ++ " to " ++
           pjoin p.remote_path "config.json" ++ "...",
         "Config upload complete", "Upload complete.",
         "Executing as root: " ++
           ("sudo -S python3 -u " ++ pjoin p.remote_path (basename p.local_script))]
        ++ env.stdoutLines
        ++ env.stderrLines.map (fun l => "[STDERR] " ++ l)
        ++ [if env.exitStatus == 0 then
              "[SUCCESS] KVM migration script exited with code " ++ toString env.exitStatus
            else
              "[ERROR] KVM migration script exited with code " ++ toString env.exitStatus]) := by
  rcases hf : env.failAt with _ | site
  all_goals try cases site
  all_goals
    by_cases hs : env.scriptAtPrimary <;> by_cases hc : env.configPresent <;>
    by_cases hz : env.exitStatus == 0 <;>
    simp [kssh_run, kssh_try, connectOp, opA, ksshResolveScript, configStep,
      ksshFinish, kssh_handler, ksshFinally_eq, hf, hs, hc, hz,
      drainPlain_eq, drainTagged_eq, logAppend, emit, setStatus, setExit,
      setFinishedAt, initRecord, terminalOnce, noLogAfterFin, afterFirst,
      isTerminalSet, isStatusSet, isFinSet, isLogApp, isRemove, isReadAll,
      isStderrRead, isStdin, logLines_append, logLines_flatMapPlain,
      logLines_flatMapTagged, logLines_mapLog, logLines_cons, logLines_nil,
      List.countP_append, List.countP_cons, List.all_append,
      afterFirst_append_not, all_flatMapPlain, all_flatMapTagged, all_mapLog,
      countP_of_all_not, countP_stderrRead_flatMapTagged,
      countP_stderrRead_flatMapTagged',
      bind, Except.bind, pure, Except.pure]

theorem all_stderrTail (q : Ev → Bool) (c : Prop) [Decidable c]
    (h2 : ∀ l, q (Ev.logAppend l) = false) (lines : List String) :
    ((if c then ([] : List Ev)
      else Ev.logAppend "--- STDERR ---" :: lines.map Ev.logAppend).all
        (fun e => !q e)) = true := by
  split
  · rfl
  · simp only [List.all_cons, h2, Bool.not_false, Bool.true_and]
    exact all_mapLog q h2 lines

theorem logLines_stderrTail (c : Prop) [Decidable c] (lines : List String) :
    logLines (if c then ([] : List Ev)
      else Ev.logAppend "--- STDERR ---" :: lines.map Ev.logAppend) =
      (if c then [] else "--- STDERR ---" :: lines) := by
  split
  · rfl
  · simp [logLines_cons, logLines_mapLog]

theorem mem_removeScript_cleanupTail (p : Params) (env : Env)
    (h : env.cleanupOpenOk = true) :
    Ev.removeAttempt (pjoin p.remote_path (basename p.local_script))
      ∈ sshCleanupTailEvs p env := by
  simp [sshCleanupTailEvs, h]

theorem mem_removeConfig_cleanupTail (p : Params) (env : Env)
    (h : env.cleanupOpenOk = true) :
    Ev.removeAttempt (pjoin p.remote_path "config.json") ∈ sshCleanupTailEvs p env := by
  simp [sshCleanupTailEvs, h]

theorem mem_removeScript_excCleanupTail (p : Params) (env : Env)
    (h : env.exCleanupOpenOk = true) :
    Ev.removeAttempt (pjoin p.remote_path (basename p.local_script))
      ∈ sshExcCleanupTailEvs p env := by
  simp [sshExcCleanupTailEvs, h]

theorem mem_removeConfig_excCleanupTail (p : Params) (env : Env)
    (h : env.exCleanupOpenOk = true) :
    Ev.removeAttempt (pjoin p.remote_path "config.json") ∈ sshExcCleanupTailEvs p env := by
  simp [sshExcCleanupTailEvs, h]

theorem logLines_excCleanupTail (p : Params) (env : Env) :
    logLines (sshExcCleanupTailEvs p env) = [] := by
  unfold sshExcCleanupTailEvs
  by_cases h : env.exCleanupOpenOk <;> simp [h, logLines]

/-- Full-run facts about the Proxmox runner task, for every environment:
lifecycle discipline of the trace (as long as the in-try `client.close()`
does not raise), log reconstruction, attempted cleanup removals, absence
of stdin writes and of per-line stderr reads, the completed-pipeline
outcome, and the connection-failure outcome. -/
theorem ssh_run_props (t0 : Nat) (p : Params) (env : Env) :
    (env.failAt ≠ some AbortSite.closeClient →
      terminalOnce (ssh_run t0 p env).evs = true) ∧
    (ssh_run t0 p env).jrec.logs = logLines (ssh_run t0 p env).evs ∧
    ((ssh_run t0 p env).evs.countP (fun e => isStdin e)) = 0 ∧
    ((ssh_run t0 p env).evs.countP (fun e => isStderrRead e)) = 0 ∧
    (env.failAt = none →
      (ssh_run t0 p env).jrec.exit_code = some env.exitStatus ∧
      (ssh_run t0 p env).jrec.status =
        (if env.exitStatus == 0 then "finished" else "failed") ∧
      (ssh_run t0 p env).jrec.finished_at = some (t0 + 1) ∧
      (ssh_run t0 p env).jrec.started_at = t0 ∧
      ("Remote script exited with code " ++ toString env.exitStatus)
        ∈ (ssh_run t0 p env).jrec.logs ∧
      Ev.recvExit ∈ (ssh_run t0 p env).evs ∧
      Ev.execCmd ("python3 -u " ++ pjoin p.remote_path (basename p.local_script))
        ∈ (ssh_run t0 p env).evs ∧
      Ev.readAllStderr ∈ (ssh_run t0 p env).evs) ∧
    ((env.failAt = some AbortSite.connectAuth ∨ env.failAt = some AbortSite.connectOther) →
      (ssh_run t0 p env).jrec.status = "failed" ∧
      (ssh_run t0 p env).jrec.exit_code = none ∧
      (("Exception: Authentication failed.") ∈ (ssh_run t0 p env).jrec.logs ∨
        ("Exception: connection error") ∈ (ssh_run t0 p env).jrec.logs) ∧
      (ssh_run t0 p env).escaped = false) := by
  rcases hf : env.failAt with _ | site
  all_goals try cases site
  all_goals
    by_cases hs : env.scriptAtPrimary <;> by_cases hc : env.configPresent <;>
    by_cases hz : env.exitStatus == 0 <;>
    simp [ssh_run, ssh_try, connectOp, opA, sshResolveScript, configStep,
      sshFinish, ssh_handler, excMsg, sshCleanup_eq, sshExcCleanup_eq, sshCloseFinal_eq,
      hf, hs, hc, hz, drainPlain_eq, sshStderrBlock_eq, logAppend, emit,
      setStatus, setExit, setFinishedAt, initRecord, terminalOnce, afterFirst,
      isTerminalSet, isStatusSet, isFinSet, isLogApp, isRemove, isReadAll,
      isStderrRead, isStdin, logLines_append, logLines_flatMapPlain,
      logLines_flatMapTagged, logLines_mapLog, logLines_cons, logLines_nil,
      List.countP_append, List.countP_cons, List.all_append,
      afterFirst_append_not, all_flatMapPlain, all_flatMapTagged, all_mapLog,
      countP_of_all_not, cleanupTail_all_not, excCleanupTail_all_not,
      logLines_excCleanupTail, all_stderrTail, logLines_stderrTail,
      bind, Except.bind, pure, Except.pure]

/-- On every path of the Proxmox runner on which the cleanup sftp sessions
can be opened, removal of both uploaded remote files is attempted. -/
theorem ssh_run_removes (t0 : Nat) (p : Params) (env : Env)
    (hO : env.cleanupOpenOk = true) (hE : env.exCleanupOpenOk = true) :
    Ev.removeAttempt (pjoin p.remote_path (basename p.local_script))
      ∈ (ssh_run t0 p env).evs ∧
    Ev.removeAttempt (pjoin p.remote_path "config.json")
      ∈ (ssh_run t0 p env).evs := by
  rcases hf : env.failAt with _ | site
  all_goals try cases site
  all_goals
    by_cases hs : env.scriptAtPrimary <;> by_cases hc : env.configPresent <;>
    simp [ssh_run, ssh_try, connectOp, opA, sshResolveScript, configStep,
      sshFinish, ssh_handler, excMsg, sshCleanup_eq, sshExcCleanup_eq, sshCloseFinal_eq,
      hf, hs, hc, hO, hE, drainPlain_eq, sshStderrBlock_eq, logAppend, emit,
      setStatus, setExit, setFinishedAt, initRecord,
      mem_removeScript_cleanupTail, mem_removeConfig_cleanupTail,
      mem_removeScript_excCleanupTail, mem_removeConfig_excCleanupTail,
      all_stderrTail, logLines_stderrTail,
      bind, Except.bind, pure, Except.pure]

/-! Registry lookup lemmas. -/

theorem lookupJob_eq_none_iff (jobs : List (String × JobRecord)) (id : String) :
    lookupJob jobs id = none ↔ hasJob jobs id = false := by
  induction jobs with
  | nil => simp [lookupJob, hasJob]
  | cons kv rest ih =>
    by_cases h : kv.1 == id <;>
      simp [lookupJob, hasJob, List.find?_cons, h] at * <;> tauto

theorem lookupJob_clear_job (jobs : List (String × JobRecord)) (id : String) :
    lookupJob (clear_job jobs id) id = none := by
  induction jobs with
  | nil => rfl
  | cons kv rest ih =>
    by_cases h : kv.1 == id
    · simpa [clear_job, List.filter_cons, h] using ih
    · simpa [clear_job, lookupJob, List.filter_cons, List.find?_cons, h] using ih

theorem hasJob_clear_job_of (jobs : List (String × JobRecord)) (x id : String)
    (h : hasJob (clear_job jobs x) id = true) : hasJob jobs id = true := by
  simp only [hasJob, clear_job, List.any_eq_true] at h ⊢
  obtain ⟨kv, hmem, hq⟩ := h
  exact ⟨kv, List.mem_of_mem_filter hmem, hq⟩

theorem hasJob_cons (u : String) (r : JobRecord) (jobs : List (String × JobRecord))
    (id : String) :
    hasJob ((u, r) :: jobs) id = (u == id || hasJob jobs id) := by
  simp [hasJob]

theorem lookupJob_some_of_hasJob (jobs : List (String × JobRecord)) (id : String)
    (h : hasJob jobs id = true) : ∃ r, lookupJob jobs id = some r := by
  cases hm : lookupJob jobs id with
  | none => rw [lookupJob_eq_none_iff, h] at hm; cases hm
  | some r => exact ⟨r, rfl⟩

theorem disjoint_step (s : AppState) (a : RegAction)
    (hd : disjointRegs s)
    (hfr : (match a with
      | RegAction.startP uid _ => !(hasJob s.pjobs uid) && !(hasJob s.kjobs uid)
      | RegAction.startK uid _ => !(hasJob s.pjobs uid) && !(hasJob s.kjobs uid)
      | RegAction.clearK _ => true) = true) :
    disjointRegs (applyAction s a) := by
  cases a with
  | startP uid t0 =>
    simp only [Bool.and_eq_true, Bool.not_eq_true'] at hfr
    intro id hid
    simp only [applyAction, appStartP, startJob] at hid ⊢
    rw [hasJob_cons, Bool.or_eq_true] at hid
    rcases hid with hid | hid
    · rw [show uid = id from by simpa using hid] at hfr
      exact hfr.2
    · exact hd id hid
  | startK uid t0 =>
    simp only [Bool.and_eq_true, Bool.not_eq_true'] at hfr
    intro id hid
    simp only [applyAction, appStartK, startJob] at hid ⊢
    rw [hasJob_cons]
    by_cases he : uid = id
    · rw [he] at hfr
      rw [hfr.1] at hid
      cases hid
    · have h2 := hd id hid
      simp [h2, show (uid == id) = false from by simpa using he]
  | clearK x =>
    intro id hid
    simp only [applyAction, appClearK] at hid ⊢
    rcases hk : hasJob (clear_job s.kjobs x) id with _ | _
    · rfl
    · have := hd id hid
      rw [hasJob_clear_job_of s.kjobs x id hk] at this
      cases this

theorem disjoint_preserved (as : List RegAction) (s : AppState)
    (hd : disjointRegs s) (hf : freshRun s as = true) :
    disjointRegs (runActions s as) := by
  induction as generalizing s with
  | nil => simpa [runActions] using hd
  | cons a rest ih =>
    simp only [freshRun, Bool.and_eq_true] at hf
    have h1 := disjoint_step s a hd hf.1
    simpa [runActions] using ih (applyAction s a) h1 hf.2

/-- C6 (confirmed): for a job id absent from a registry (never issued, or
deleted by `clear_job`), `get_job_status` of either runner raises its
`SSHRunnerError` not-found error and never returns a default record; for
an id present in the registry the stored record is returned without
error. -/
theorem get_job_status_not_found_spec (jobs : List (String × JobRecord)) (id : String) :
    (lookupJob jobs id = none →
      get_job_status jobs id = Except.error "Job not found" ∧
      kssh_get_job_status jobs id = Except.error ("Job not found: " ++ id)) ∧
    (∀ r, lookupJob jobs id = some r →
      get_job_status jobs id = Except.ok r ∧
      kssh_get_job_status jobs id = Except.ok r) ∧
    get_job_status (clear_job jobs id) id = Except.error "Job not found" ∧
    kssh_get_job_status (clear_job jobs id) id =
      Except.error ("Job not found: " ++ id) := by
  refine ⟨fun h => ?_, fun r h => ?_, ?_, ?_⟩ <;>
    simp [get_job_status, kssh_get_job_status, lookupJob_clear_job, *]

/-- C6 witness: a registry holding one job answers a not-found error for a
foreign id and the stored record for its own id. -/
theorem get_job_status_not_found_spec_witness :
    get_job_status [("a", initRecord 0)] "b" = Except.error "Job not found" ∧
    get_job_status [("a", initRecord 0)] "a" = Except.ok (initRecord 0) :=
  ⟨((get_job_status_not_found_spec [("a", initRecord 0)] "b").1 (by decide)).1,
   ((get_job_status_not_found_spec [("a", initRecord 0)] "a").2.1 (initRecord 0)
     (by decide)).1⟩

/-- C10 (confirmed): the two runners keep disjoint module-level registries.
`start_remote_migration` inserts only into the Proxmox map and
`start_kvm_migration` only into the KVM map; under fresh ids the maps stay
disjoint across any action sequence, an id held by the Proxmox map makes
the KVM `get_job_status` raise its not-found error, and the
`migration_status` route resolves every id through exactly one registry:
the Proxmox one when it holds the id, otherwise the KVM one, otherwise a
404 error. -/
theorem registry_disjoint_resolution (s : AppState) (as : List RegAction)
    (uid : String) (t0 : Nat) (id : String)
    (hd : disjointRegs s) (hf : freshRun s as = true) :
    ((appStartP s uid t0).kjobs = s.kjobs ∧
     hasJob (appStartP s uid t0).pjobs uid = true ∧
     (appStartK s uid t0).pjobs = s.pjobs ∧
     hasJob (appStartK s uid t0).kjobs uid = true) ∧
    disjointRegs (runActions s as) ∧
    (hasJob (runActions s as).pjobs id = true →
      kssh_get_job_status (runActions s as).kjobs id =
        Except.error ("Job not found: " ++ id) ∧
      (∃ r, lookupJob (runActions s as).pjobs id = some r ∧
        migration_status (runActions s as) id = Except.ok r)) ∧
    (hasJob (runActions s as).pjobs id = false →
      hasJob (runActions s as).kjobs id = true →
      (∃ r, lookupJob (runActions s as).kjobs id = some r ∧
        migration_status (runActions s as) id = Except.ok r)) ∧
    (hasJob (runActions s as).pjobs id = false →
      hasJob (runActions s as).kjobs id = false →
      migration_status (runActions s as) id = Except.error "Job not found") := by
  have hdisj := disjoint_preserved as s hd hf
  refine ⟨⟨rfl, ?_, rfl, ?_⟩, hdisj, fun hp => ?_, fun hp hk => ?_, fun hp hk => ?_⟩
  · simp [appStartP, startJob, hasJob_cons]
  · simp [appStartK, startJob, hasJob_cons]
  · have hk := hdisj id hp
    have hkn : lookupJob (runActions s as).kjobs id = none :=
      (lookupJob_eq_none_iff _ _).mpr hk
    obtain ⟨r, hr⟩ := lookupJob_some_of_hasJob _ _ hp
    refine ⟨by simp [kssh_get_job_status, hkn], r, hr,
      by simp [migration_status, get_job_status, hr]⟩
  · have hpn : lookupJob (runActions s as).pjobs id = none :=
      (lookupJob_eq_none_iff _ _).mpr hp
    obtain ⟨r, hr⟩ := lookupJob_some_of_hasJob _ _ hk
    exact ⟨r, hr,
      by simp [migration_status, get_job_status, kssh_get_job_status, hpn, hr]⟩
  · have hpn : lookupJob (runActions s as).pjobs id = none :=
      (lookupJob_eq_none_iff _ _).mpr hp
    have hkn : lookupJob (runActions s as).kjobs id = none :=
      (lookupJob_eq_none_iff _ _).mpr hk
    simp [migration_status, get_job_status, kssh_get_job_status, hpn, hkn]

/-- C10 witness: from empty registries, a Proxmox start and a KVM start
with fresh ids leave the Proxmox-issued id invisible to the KVM getter and
resolved by the route through the Proxmox registry. -/
theorem registry_disjoint_resolution_witness :
    kssh_get_job_status
      (runActions (AppState.mk [] [])
        [RegAction.startP "p1" 0, RegAction.startK "k1" 1]).kjobs "p1" =
      Except.error ("Job not found: " ++ "p1") ∧
    (∃ r, lookupJob
        (runActions (AppState.mk [] [])
          [RegAction.startP "p1" 0, RegAction.startK "k1" 1]).pjobs "p1" = some r ∧
      migration_status
        (runActions (AppState.mk [] [])
          [RegAction.startP "p1" 0, RegAction.startK "k1" 1]) "p1" = Except.ok r) :=
  (registry_disjoint_resolution (AppState.mk [] [])
    [RegAction.startP "p1" 0, RegAction.startK "k1" 1] "x" 0 "p1"
    (fun id h => by simp [hasJob] at h) (by decide)).2.2.1 (by decide)

/-- C9 (corrected): `get_job_status` returns no immutable snapshot.  The
Proxmox runner returns the live record object (`return job`), so every
later mutation by the job task is visible through the returned value; the
KVM runner returns a shallow copy (`JOBS[job_id].copy()`) whose scalar
slots are frozen at call time but whose `logs` slot still references the
live list object, so later log appends are visible through the copy. -/
theorem get_job_status_aliasing (h : PyHeap) (jobs : List (String × Nat))
    (id : String) (r : Nat) (hr : ssh_get_ref jobs id = Except.ok r)
    (hfresh : r ≠ h.nextRef) :
    (∀ s, (readRecord (heapSetStatus h r s) r).status = s) ∧
    (∀ line, (readRecord (heapAppendLog h r line) r).logs =
      (readRecord h r).logs ++ [line]) ∧
    (∀ h2 c, kssh_get_copy jobs id h = Except.ok (h2, c) →
      (∀ s, (readRecord (heapSetStatus h2 r s) c).status = (readRecord h r).status) ∧
      (∀ line, (readRecord (heapAppendLog h2 r line) c).logs =
        (readRecord h r).logs ++ [line])) := by
  refine ⟨fun s => by simp [readRecord, heapSetStatus], fun line => ?_, ?_⟩
  · simp [readRecord, heapAppendLog]
  · intro h2 c hok
    cases hm : jobs.find? (fun kv => kv.1 == id) with
    | none => simp [kssh_get_copy, hm] at hok
    | some kv =>
      have hkv : kv.2 = r := by
        unfold ssh_get_ref at hr
        rw [hm] at hr
        simpa using hr
      have hval : kssh_get_copy jobs id h =
          Except.ok ({ h with
            recStore := fun x => if x = h.nextRef then h.recStore kv.2 else h.recStore x,
            nextRef := h.nextRef + 1 }, h.nextRef) := by
        simp [kssh_get_copy, hm]
      rw [hval, Except.ok.injEq, Prod.mk.injEq] at hok
      obtain ⟨hh2, hc⟩ := hok
      subst hh2
      subst hc
      have hcr : h.nextRef ≠ r := fun he => hfresh he.symm
      constructor
      · intro s
        simp [readRecord, heapSetStatus, hcr, hkv]
      · intro line
        simp [readRecord, heapAppendLog, hcr, hkv, hfresh]

/-- C9 witness: through the KVM copy taken on the demo heap, a log line
appended afterwards by the owning task is visible. -/
theorem get_job_status_aliasing_witness :
    (readRecord (heapAppendLog demoCopy.1 0 "b") demoCopy.2).logs =
      (readRecord demoHeap 0).logs ++ ["b"] :=
  (((get_job_status_aliasing demoHeap [("j", 0)] "j" 0 rfl (by decide)).2.2
    demoCopy.1 demoCopy.2 rfl).2) "b"

/-- C9 counterexample: on the demo heap the value returned by the Proxmox
getter changes when the task marks the job finished, and the logs seen
through the KVM copy change when the task appends a line — the returned
values are not immutable snapshots. -/
theorem snapshot_mutation_counterexample :
    ssh_get_ref [("j", 0)] "j" = Except.ok 0 ∧
    readRecord demoHeap 0 ≠ readRecord (heapSetStatus demoHeap 0 "finished") 0 ∧
    (readRecord demoCopy.1 demoCopy.2).logs = ["a"] ∧
    (readRecord (heapAppendLog demoCopy.1 0 "b") demoCopy.2).logs = ["a", "b"] := by
  refine ⟨rfl, ?_, rfl, rfl⟩
  intro he
  have := congrArg JobRecord.status he
  simp [readRecord, heapSetStatus, demoHeap] at this

/-- C1 (amended): for a job whose remote process runs to completion and
whose transport operations after the terminal transition do not raise
(`failAt = none` also rules out an exception from the final in-try
`client.close()` of the Proxmox runner, which would re-mark a finished job
failed), the remote exit status alone determines the terminal outcome in
both runners: code 0 yields finished with exit_code 0 and
finished_at >= started_at, any other code yields failed with the code
stored and an exit log line appended. -/
theorem remote_exit_status_determines_outcome (t0 : Nat) (p : Params) (env : Env)
    (h : env.failAt = none) :
    (env.exitStatus = 0 →
      (ssh_run t0 p env).jrec.status = "finished" ∧
      (ssh_run t0 p env).jrec.exit_code = some 0 ∧
      (∃ tf, (ssh_run t0 p env).jrec.finished_at = some tf ∧
        (ssh_run t0 p env).jrec.started_at ≤ tf) ∧
      (kssh_run t0 p env).jrec.status = "finished" ∧
      (kssh_run t0 p env).jrec.exit_code = some 0 ∧
      (∃ tf, (kssh_run t0 p env).jrec.finished_at = some tf ∧
        (kssh_run t0 p env).jrec.started_at ≤ tf)) ∧
    (env.exitStatus ≠ 0 →
      (ssh_run t0 p env).jrec.status = "failed" ∧
      (ssh_run t0 p env).jrec.exit_code = some env.exitStatus ∧
      ("Remote script exited with code " ++ toString env.exitStatus)
        ∈ (ssh_run t0 p env).jrec.logs ∧
      (kssh_run t0 p env).jrec.status = "failed" ∧
      (kssh_run t0 p env).jrec.exit_code = some env.exitStatus ∧
      ("[ERROR] KVM migration script exited with code " ++ toString env.exitStatus)
        ∈ (kssh_run t0 p env).jrec.logs) := by
  obtain ⟨-, -, -, -, hS, -⟩ := ssh_run_props t0 p env
  obtain ⟨-, -, -, -, -, hK, -, -⟩ := kssh_run_props t0 p env
  obtain ⟨hse, hss, hsf, hst, hsl, -, -, -⟩ := hS h
  obtain ⟨hke, hks, hkf, hkt, -, -, -, -, hkl⟩ := hK h
  constructor
  · intro hz
    have hzb : (env.exitStatus == 0) = true := by simpa using hz
    rw [hzb] at hss hks
    refine ⟨by simpa using hss, by rw [hse, hz], ⟨t0 + 1, hsf, by rw [hst]; omega⟩,
      by simpa using hks, by rw [hke, hz], ⟨t0 + 1, hkf, by rw [hkt]; omega⟩⟩
  · intro hnz
    have hzb : (env.exitStatus == 0) = false := by simpa using hnz
    rw [hzb] at hss hks hkl
    exact ⟨by simpa using hss, hse, hsl, by simpa using hks, hke, by simpa using hkl⟩

/-- C1 witness: the all-success environment with exit code 0. -/
theorem remote_exit_status_determines_outcome_witness :
    (ssh_run 0 demoParams envAllOk).jrec.status = "finished" ∧
    (ssh_run 0 demoParams envAllOk).jrec.exit_code = some 0 ∧
    (∃ tf, (ssh_run 0 demoParams envAllOk).jrec.finished_at = some tf ∧
      (ssh_run 0 demoParams envAllOk).jrec.started_at ≤ tf) ∧
    (kssh_run 0 demoParams envAllOk).jrec.status = "finished" ∧
    (kssh_run 0 demoParams envAllOk).jrec.exit_code = some 0 ∧
    (∃ tf, (kssh_run 0 demoParams envAllOk).jrec.finished_at = some tf ∧
      (kssh_run 0 demoParams envAllOk).jrec.started_at ≤ tf) :=
  (remote_exit_status_determines_outcome 0 demoParams envAllOk rfl).1 rfl

/-- C1 counterexample: a Proxmox run whose remote process completed with
exit code 0 but whose final `client.close()` raised ends failed — the exit
status alone does not determine the terminal outcome. -/
theorem remote_exit_close_failure_counterexample :
    Ev.recvExit ∈ (ssh_run 0 demoParams envClose).evs ∧
    (ssh_run 0 demoParams envClose).jrec.exit_code = some 0 ∧
    (ssh_run 0 demoParams envClose).jrec.status = "failed" :=
  ⟨by decide, rfl, rfl⟩

/-- C2 (amended): the terminal transition happens exactly once — one
terminal status assignment, no status assignment after it, and exactly one
finished_at assignment, placed at that transition — unconditionally in the
KVM runner, and in the Proxmox runner provided the in-try `client.close()`
does not raise (otherwise the handler re-marks the job failed and assigns
finished_at a second time). -/
theorem terminal_status_set_once (t0 : Nat) (pP pK : Params) (envP envK : Env)
    (h : envP.failAt ≠ some AbortSite.closeClient) :
    terminalOnce (ssh_run t0 pP envP).evs = true ∧
    terminalOnce (kssh_run t0 pK envK).evs = true :=
  ⟨(ssh_run_props t0 pP envP).1 h, (kssh_run_props t0 pK envK).1⟩

/-- C2 witness: the all-success environment on both runners. -/
theorem terminal_status_set_once_witness :
    terminalOnce (ssh_run 0 demoParams envAllOk).evs = true ∧
    terminalOnce (kssh_run 0 kvmParams envAllOk).evs = true :=
  terminal_status_set_once 0 demoParams kvmParams envAllOk envAllOk (by decide)

/-- C2 counterexample: when the final in-try `client.close()` of the
Proxmox runner raises after a successful run, the status moves from
finished back to failed and finished_at is assigned twice. -/
theorem terminal_status_regression_counterexample :
    Ev.setStatus "finished" ∈ (ssh_run 0 demoParams envClose).evs ∧
    (ssh_run 0 demoParams envClose).jrec.status = "failed" ∧
    ((ssh_run 0 demoParams envClose).evs.countP (fun e => isFinSet e)) = 2 ∧
    terminalOnce (ssh_run 0 demoParams envClose).evs = false :=
  ⟨by decide, rfl, by decide, by decide⟩

/-- C3 (amended): in both runners the final logs are exactly the appended
lines in order (append-only, never truncated or reordered); the
no-append-after-finished_at discipline holds for the KVM runner, while the
Proxmox runner appends its exit line and cleanup lines after finished_at
is set (see the counterexample), so its logs only stop growing when the
job task ends. -/
theorem logs_append_only_discipline (t0 : Nat) (pP pK : Params) (envP envK : Env) :
    noLogAfterFin (kssh_run t0 pK envK).evs = true ∧
    (ssh_run t0 pP envP).jrec.logs = logLines (ssh_run t0 pP envP).evs ∧
    (kssh_run t0 pK envK).jrec.logs = logLines (kssh_run t0 pK envK).evs :=
  ⟨(kssh_run_props t0 pK envK).2.1, (ssh_run_props t0 pP envP).2.1,
   (kssh_run_props t0 pK envK).2.2.1⟩

/-- C3 counterexample: on a fully successful Proxmox run the exit log line
is appended after finished_at was assigned. -/
theorem log_appended_after_finished_counterexample :
    noLogAfterFin (ssh_run 0 demoParams envAllOk).evs = false ∧
    Ev.logAppend "Remote script exited with code 0" ∈
      afterFirst isFinSet (ssh_run 0 demoParams envAllOk).evs :=
  ⟨by decide, by decide⟩

/-- C4 (amended): only the Proxmox runner attempts removal of the uploaded
remote script and configuration — on every path, normal or exception,
provided a cleanup sftp session can be opened — and failures inside its
cleanup blocks only append log lines and never change status, exit code or
finished_at; the KVM runner never attempts any remote file removal. -/
theorem cleanup_attempt_behavior (t0 : Nat) (pP pK : Params) (envP envK envF : Env)
    (st : RunState) (hO : envP.cleanupOpenOk = true) (hE : envP.exCleanupOpenOk = true) :
    (Ev.removeAttempt (pjoin pP.remote_path (basename pP.local_script))
        ∈ (ssh_run t0 pP envP).evs ∧
      Ev.removeAttempt (pjoin pP.remote_path "config.json")
        ∈ (ssh_run t0 pP envP).evs) ∧
    ((kssh_run t0 pK envK).evs.countP (fun e => isRemove e)) = 0 ∧
    ((sshCleanup pP envF st).jrec.status = st.jrec.status ∧
     (sshCleanup pP envF st).jrec.exit_code = st.jrec.exit_code ∧
     (sshCleanup pP envF st).jrec.finished_at = st.jrec.finished_at ∧
     (sshExcCleanup pP envF st).jrec = st.jrec) := by
  refine ⟨ssh_run_removes t0 pP envP hO hE, (kssh_run_props t0 pK envK).2.2.2.1,
    ?_, ?_, ?_, ?_⟩ <;> simp [sshCleanup_eq, sshExcCleanup_eq]

/-- C4 witness: on the all-success environment the Proxmox runner attempts
the script removal and the KVM runner attempts none. -/
theorem cleanup_attempt_behavior_witness :
    Ev.removeAttempt (pjoin demoParams.remote_path (basename demoParams.local_script))
      ∈ (ssh_run 0 demoParams envAllOk).evs ∧
    ((kssh_run 0 kvmParams envAllOk).evs.countP (fun e => isRemove e)) = 0 :=
  ⟨(cleanup_attempt_behavior 0 demoParams kvmParams envAllOk envAllOk envAllOk
      (ssh_run 0 demoParams envAllOk) rfl rfl).1.1,
   (cleanup_attempt_behavior 0 demoParams kvmParams envAllOk envAllOk envAllOk
      (ssh_run 0 demoParams envAllOk) rfl rfl).2.1⟩

/-- C4 counterexample: a fully successful KVM run uploads the script and
completes, yet never attempts a single remote file removal. -/
theorem kvm_no_cleanup_counterexample :
    Ev.put "/root/kvm_migration.py" ∈ (kssh_run 0 kvmParams envAllOk).evs ∧
    Ev.recvExit ∈ (kssh_run 0 kvmParams envAllOk).evs ∧
    ((kssh_run 0 kvmParams envAllOk).evs.countP (fun e => isRemove e)) = 0 :=
  ⟨by decide, by decide, by decide⟩

/-- C5 (confirmed): when the connection attempt fails (authentication
rejection or any other connection exception), both runners end the job
failed with exit_code unset and a log line naming the failure; the
exception is absorbed inside the job task (nothing escapes the thread),
and the start call returned the job id independently of the task. -/
theorem connection_failure_marks_failed (t0 : Nat) (pP pK : Params) (env : Env)
    (jobs : List (String × JobRecord)) (uid : String)
    (h : env.failAt = some AbortSite.connectAuth ∨
      env.failAt = some AbortSite.connectOther) :
    (startJob jobs uid t0).2 = uid ∧
    (ssh_run t0 pP env).jrec.status = "failed" ∧
    (ssh_run t0 pP env).jrec.exit_code = none ∧
    (("Exception: Authentication failed.") ∈ (ssh_run t0 pP env).jrec.logs ∨
      ("Exception: connection error") ∈ (ssh_run t0 pP env).jrec.logs) ∧
    (ssh_run t0 pP env).escaped = false ∧
    (kssh_run t0 pK env).jrec.status = "failed" ∧
    (kssh_run t0 pK env).jrec.exit_code = none ∧
    (("[ERROR] SSH authentication failed: Authentication failed.")
        ∈ (kssh_run t0 pK env).jrec.logs ∨
      ("[ERROR] connection error") ∈ (kssh_run t0 pK env).jrec.logs) ∧
    (kssh_run t0 pK env).escaped = false := by
  obtain ⟨-, -, -, -, -, hS⟩ := ssh_run_props t0 pP env
  obtain ⟨-, -, -, -, -, -, hK, -⟩ := kssh_run_props t0 pK env
  obtain ⟨h1, h2, h3, h4⟩ := hS h
  obtain ⟨k1, k2, k3, k4⟩ := hK h
  exact ⟨rfl, h1, h2, h3, h4, k1, k2, k3, k4⟩

/-- C5 witness: an authentication failure on both runners. -/
theorem connection_failure_marks_failed_witness :
    (ssh_run 0 demoParams envAuth).jrec.status = "failed" ∧
    (kssh_run 0 kvmParams envAuth).jrec.exit_code = none :=
  ⟨(connection_failure_marks_failed 0 demoParams kvmParams envAuth [] "u"
      (Or.inl rfl)).2.1,
   (connection_failure_marks_failed 0 demoParams kvmParams envAuth [] "u"
      (Or.inl rfl)).2.2.2.2.2.2.1⟩

/-- C7 (amended): on a clean run the KVM runner drains stderr
incrementally — one per-line read per stderr line, no wholesale read — and
appends each line with the distinct `[STDERR]` tag, interleaved with
stdout into the single ordered log; the Proxmox runner instead performs a
wholesale stderr read after draining stdout, never reads stderr per line,
and appends the block under one untagged header (see counterexample). -/
theorem stderr_streaming_behavior (t0 : Nat) (pP pK : Params) (env : Env)
    (hf : env.failAt = none) (hs : env.scriptAtPrimary = true)
    (hc : env.configPresent = true) :
    ((kssh_run t0 pK env).evs.countP (fun e => isStderrRead e)) =
      env.stderrLines.length ∧
    ((kssh_run t0 pK env).evs.countP (fun e => isReadAll e)) = 0 ∧
    (kssh_run t0 pK env).jrec.logs =
      ["Connecting to " ++ pK.host ++ ":" ++ toString pK.port ++ " as " ++
         pK.username ++ "...",
       "SSH connection established.",
       "Uploading " ++ pjoin pK.cwd pK.local_script ++ " to " ++
         pjoin pK.remote_path (basename pK.local_script) ++ "...",
       "Uploading " ++ pjoin pK.cwd pK.config_path ++ " to " ++
         pjoin pK.remote_path "config.json" ++ "...",
       "Config upload complete", "Upload complete.",
       "Executing as root: " ++
         ("sudo -S python3 -u " ++ pjoin pK.remote_path (basename pK.local_script))]
      ++ env.stdoutLines
      ++ env.stderrLines.map (fun l => "[STDERR] " ++ l)
      ++ [if env.exitStatus == 0 then
            "[SUCCESS] KVM migration script exited with code " ++ toString env.exitStatus
          else
            "[ERROR] KVM migration script exited with code " ++ toString env.exitStatus] ∧
    Ev.readAllStderr ∈ (ssh_run t0 pP env).evs ∧
    ((ssh_run t0 pP env).evs.countP (fun e => isStderrRead e)) = 0 := by
  obtain ⟨-, -, -, -, -, hK6, -, hK8⟩ := kssh_run_props t0 pK env
  obtain ⟨-, -, -, hS4, hS5, -⟩ := ssh_run_props t0 pP env
  obtain ⟨-, -, -, -, -, -, -, hcount, -⟩ := hK6 hf
  exact ⟨hcount, (kssh_run_props t0 pK env).2.2.2.2.1, hK8 hf hs hc,
    (hS5 hf).2.2.2.2.2.2.2, hS4⟩

/-- C7 witness: the all-success environment with one stderr line. -/
theorem stderr_streaming_behavior_witness :
    ((kssh_run 0 kvmParams envAllOk).evs.countP (fun e => isStderrRead e)) =
      envAllOk.stderrLines.length ∧
    Ev.readAllStderr ∈ (ssh_run 0 demoParams envAllOk).evs :=
  ⟨(stderr_streaming_behavior 0 demoParams kvmParams envAllOk rfl rfl rfl).1,
   (stderr_streaming_behavior 0 demoParams kvmParams envAllOk rfl rfl rfl).2.2.2.1⟩

/-- C7 counterexample: the Proxmox runner reads stderr wholesale (one
readAllStderr event, zero per-line reads) and appends the stderr line
`boom` without any per-line tag, under a single block header. -/
theorem stderr_wholesale_untagged_counterexample :
    Ev.readAllStderr ∈ (ssh_run 0 demoParams envAllOk).evs ∧
    ((ssh_run 0 demoParams envAllOk).evs.countP (fun e => isStderrRead e)) = 0 ∧
    "--- STDERR ---" ∈ (ssh_run 0 demoParams envAllOk).jrec.logs ∧
    "boom" ∈ (ssh_run 0 demoParams envAllOk).jrec.logs ∧
    ¬ ("[STDERR] boom" ∈ (ssh_run 0 demoParams envAllOk).jrec.logs) :=
  ⟨by decide, by decide, by decide, by decide, by decide⟩

/-- C8 (amended): only the KVM runner executes the uploaded script with
elevated privilege (`sudo -S`) and writes the session password followed by
a newline to the remote stdin channel; the Proxmox runner executes plain
`python3 -u` and never writes to the stdin channel. -/
theorem privilege_escalation_behavior (t0 : Nat) (pP pK : Params) (env : Env)
    (hf : env.failAt = none) :
    Ev.execCmd ("sudo -S python3 -u " ++ pjoin pK.remote_path (basename pK.local_script))
      ∈ (kssh_run t0 pK env).evs ∧
    Ev.stdinWrite (pK.password ++ "\n") ∈ (kssh_run t0 pK env).evs ∧
    Ev.execCmd ("python3 -u " ++ pjoin pP.remote_path (basename pP.local_script))
      ∈ (ssh_run t0 pP env).evs ∧
    ((ssh_run t0 pP env).evs.countP (fun e => isStdin e)) = 0 := by
  obtain ⟨-, -, -, -, -, hK6, -, -⟩ := kssh_run_props t0 pK env
  obtain ⟨-, -, hS3, -, hS5, -⟩ := ssh_run_props t0 pP env
  obtain ⟨-, -, -, -, hexec, hstdin, -, -, -⟩ := hK6 hf
  exact ⟨hexec, hstdin, (hS5 hf).2.2.2.2.2.2.1, hS3⟩

/-- C8 witness: the all-success environment on both runners. -/
theorem privilege_escalation_behavior_witness :
    Ev.stdinWrite (kvmParams.password ++ "\n") ∈ (kssh_run 0 kvmParams envAllOk).evs ∧
    ((ssh_run 0 demoParams envAllOk).evs.countP (fun e => isStdin e)) = 0 :=
  ⟨(privilege_escalation_behavior 0 demoParams kvmParams envAllOk rfl).2.1,
   (privilege_escalation_behavior 0 demoParams kvmParams envAllOk rfl).2.2.2⟩

/-- C8 counterexample: the Proxmox runner executes the script without any
privilege escalation and writes nothing to the remote stdin channel. -/
theorem no_sudo_in_proxmox_counterexample :
    Ev.execCmd "python3 -u /root/mscript.py" ∈ (ssh_run 0 demoParams envAllOk).evs ∧
    ((ssh_run 0 demoParams envAllOk).evs.countP (fun e => isStdin e)) = 0 :=
  ⟨by decide, by decide⟩
